import Mathlib

/-!
A shallow embedding of the notify-complete program (src/main.rs and
src/config.rs): the configuration data model, timeout/urgency/command
parsing, profile lookup from the TOML file, command-line override
resolution, and the notification/exit path that runs after the child
process completes.
-/

namespace NotifyComplete

/-- The notify_rust Timeout type used by the source. Milliseconds carries a
u32 in the source; it is modelled as a Nat that the parser keeps below 2^32. -/
inductive Timeout where
  | Default : Timeout
  | Never : Timeout
  | Milliseconds : Nat → Timeout
deriving DecidableEq

/-- The notify_rust Urgency type used by the source. -/
inductive Urgency where
  | Low : Urgency
  | Normal : Urgency
  | Critical : Urgency
deriving DecidableEq

/-- The Config struct of src/config.rs. -/
structure Config where
  icon : String
  message : String
  timeout : Timeout
  title : String
  urgency : Urgency
  command : List String
deriving DecidableEq

/-- Config::default_icon. -/
def default_icon : String := ""

/-- Config::default_message. -/
def default_message : String := ""

/-- Config::default_title. -/
def default_title : String := "Command completed"

/-- Config::default_timeout. -/
def default_timeout : Timeout := Timeout.Default

/-- Config::default_urgency. -/
def default_urgency : Urgency := Urgency.Normal

/-- Config::default_command. -/
def default_command : List String := []

/-- Config::default_config. -/
def default_config : Config :=
  { icon := default_icon
    message := default_message
    timeout := default_timeout
    title := default_title
    urgency := default_urgency
    command := default_command }

/-- Decimal value of a character list: digit by digit, failing on any
character that is not an ASCII digit. -/
def digitsVal : List Char → Nat → Option Nat
  | [], acc => some acc
  | c :: cs, acc =>
      if c.isDigit then digitsVal cs (acc * 10 + (c.toNat - 48)) else none

/-- Decimal reading of an unsigned-integer literal body: the character list
must be nonempty and all digits. -/
def decimalVal : List Char → Option Nat
  | [] => none
  | c :: cs => digitsVal (c :: cs) 0

/-- The Rust u32 from_str used by timeout.parse in the source, modelled on
Nat: an optional leading plus sign, then a nonempty digit string whose value
fits in 32 bits; anything else fails. -/
def parseU32 (s : String) : Option Nat :=
  let cs :=
    match s.data with
    | '+' :: rest => rest
    | cs => cs
  match decimalVal cs with
  | some n => if n < 4294967296 then some n else none
  | none => none

/-- Config::parse_timeout of src/config.rs. -/
def parse_timeout (timeout : String) : Timeout :=
  if timeout = "default" then Timeout.Default
  else if timeout = "never" then Timeout.Never
  else
    match parseU32 timeout with
    | some ms => Timeout.Milliseconds ms
    | none => Timeout.Default

/-- Config::parse_urgency of src/config.rs. -/
def parse_urgency (urgency : String) : Urgency :=
  if urgency = "low" then Urgency.Low
  else if urgency = "normal" then Urgency.Normal
  else if urgency = "critical" then Urgency.Critical
  else Urgency.Normal

/-- The str split_whitespace loop behind Config::parse_command: maximal runs
of non-whitespace characters become components, whitespace is discarded. The
second argument accumulates the current component in reverse. -/
def splitWhitespaceAux : List Char → List Char → List String
  | [], [] => []
  | [], acc => [String.mk acc.reverse]
  | c :: cs, acc =>
      if c.isWhitespace then
        match acc with
        | [] => splitWhitespaceAux cs []
        | _ => String.mk acc.reverse :: splitWhitespaceAux cs []
      else splitWhitespaceAux cs (c :: acc)

/-- Config::parse_command of src/config.rs. -/
def parse_command (command : String) : List String :=
  splitWhitespaceAux command.data []

/-- The TomlProfile struct of src/config.rs (deserialized profile entry). -/
structure TomlProfile where
  name : String
  icon : Option String
  message : Option String
  timeout : Option String
  title : Option String
  urgency : Option String
  command : Option String
deriving DecidableEq

/-- The TomlConfig struct of src/config.rs. -/
structure TomlConfig where
  profile : Option (List TomlProfile)
deriving DecidableEq

/-- Config::from_toml_profile of src/config.rs: each declared field is used,
each omitted field falls back to the built-in default for that field. -/
def from_toml_profile (profile : TomlProfile) : Config :=
  { icon :=
      match profile.icon with
      | some i => i
      | none => default_icon
    message :=
      match profile.message with
      | some m => m
      | none => default_message
    timeout :=
      match profile.timeout with
      | some t => parse_timeout t
      | none => default_timeout
    title :=
      match profile.title with
      | some t => t
      | none => default_title
    urgency :=
      match profile.urgency with
      | some u => parse_urgency u
      | none => default_urgency
    command :=
      match profile.command with
      | some c => parse_command c
      | none => default_command }

/-- The search loop of Config::from_toml: the first profile in declaration
order whose name equals the requested one is used. -/
def from_toml_find (profile : String) : List TomlProfile → Config
  | [] => default_config
  | p :: rest =>
      if profile = p.name then from_toml_profile p
      else from_toml_find profile rest

/-- Config::from_toml of src/config.rs. -/
def from_toml (profile : String) (toml : TomlConfig) : Config :=
  match toml.profile with
  | none => default_config
  | some ps => from_toml_find profile ps

/-- The Args struct shared by src/main.rs and the args module of
src/config.rs, after command-line parsing. -/
structure Args where
  profile : String
  title : Option String
  message : Option String
  timeout : Option String
  urgency : Option String
  command : List String
deriving DecidableEq

/-- update_conf_from_args of src/main.rs: each present override replaces the
corresponding field of the configuration. -/
def update_conf_from_args (conf : Config) (args : Args) : Config :=
  let conf :=
    match args.title with
    | some t => { conf with title := t }
    | none => conf
  let conf :=
    match args.message with
    | some m => { conf with message := m }
    | none => conf
  let conf :=
    match args.timeout with
    | some t => { conf with timeout := parse_timeout t }
    | none => conf
  match args.urgency with
  | some u => { conf with urgency := parse_urgency u }
  | none => conf

/-- The profile-selection step of Config::new_from: no TOML config or a TOML
config without a profile list yields the default config, otherwise the
requested profile is looked up. -/
def lookup_config (profileName : String) (toml_config : Option TomlConfig) : Config :=
  match toml_config with
  | some tc =>
      match tc.profile with
      | none => default_config
      | some _ => from_toml profileName tc
  | none => default_config

/-- Config::new_from of src/config.rs, after argument parsing: the looked-up
profile config, with each present override applied, and the command always
set to the command vector of the argument set. -/
def new_from (args : Args) (toml_config : Option TomlConfig) : Config :=
  let conf := lookup_config args.profile toml_config
  let conf :=
    match args.title with
    | some t => { conf with title := t }
    | none => conf
  let conf :=
    match args.message with
    | some m => { conf with message := m }
    | none => conf
  let conf :=
    match args.timeout with
    | some t => { conf with timeout := parse_timeout t }
    | none => conf
  let conf :=
    match args.urgency with
    | some u => { conf with urgency := parse_urgency u }
    | none => conf
  { conf with command := args.command }

/-- The possible states of the configuration file as observed by
read_config_file: the path is not a file, reading it fails, or it holds a
string. -/
inductive ConfigSource where
  | absent : ConfigSource
  | unreadable : ConfigSource
  | contents : String → ConfigSource

/-- read_config_file of src/config.rs, with the external TOML deserializer
passed in as a function: an absent path or a read error yields none, a parse
failure yields none, success yields the parsed TomlConfig. -/
def read_config_file (fromStr : String → Option TomlConfig) :
    ConfigSource → Option TomlConfig
  | ConfigSource.absent => none
  | ConfigSource.unreadable => none
  | ConfigSource.contents s =>
      match fromStr s with
      | some c => some c
      | none => none

/-- std::process::ExitStatus as used by src/main.rs on Unix: code is some c
after a normal exit and none after termination by a signal. -/
structure ExitStatus where
  code : Option Int
deriving DecidableEq

/-- The body string built in send_notification of src/main.rs, with the
humantime duration formatter passed in as fmt over whole seconds. The source
unwraps the optional exit code, so none models the resulting process abort
when the child was terminated by a signal. -/
def notification_body (fmt : Nat → String) (conf : Config) (durSecs : Nat)
    (status : ExitStatus) : Option String :=
  match status.code with
  | some c =>
      some (conf.message ++ "\n" ++ "Result: " ++ toString c ++ "\n"
        ++ "Completed in " ++ fmt durSecs)
  | none => none

/-- The duration computation of main in src/main.rs: the wall-clock
difference, given here in nanoseconds, is truncated to whole seconds before
being handed to the duration formatter. -/
def elapsed_whole_secs (elapsedNanos : Nat) : Nat :=
  elapsedNanos / 1000000000

/-- The tail of main in src/main.rs once child.wait has succeeded: the
notification body is built from the truncated elapsed time and the child
status, and main returns Ok of unit, that is process exit status 0; none
models the abort caused inside send_notification. -/
def run_after_child (fmt : Nat → String) (conf : Config) (elapsedNanos : Nat)
    (status : ExitStatus) : Option Nat :=
  match notification_body fmt conf (elapsed_whole_secs elapsedNanos) status with
  | some _ => some 0
  | none => none

/-- Modelled from the spec, for comparison with notification_body: the body
starts from the message, then the elapsed-duration line, then the exit-code
line appended only when an exit code is present. -/
def notification_body_spec (fmt : Nat → String) (conf : Config) (durSecs : Nat)
    (status : ExitStatus) : String :=
  conf.message ++ "\n" ++ "Completed in " ++ fmt durSecs ++
    (match status.code with
     | some c => "\n" ++ "Result: " ++ toString c
     | none => "")

/-- C1 counterexample: a run whose child exits normally with code 5 makes
the program exit with status 0, not 5 — main always returns Ok of unit, so
the exit status never mirrors the child code. -/
theorem c1_counterexample :
    run_after_child (fun _ => "0s") default_config 0 (ExitStatus.mk (some 5))
      ≠ some 5 := by
  decide

/-- C1 (amended): for every run that reaches completion of the child
process, the program exit status is 0 whenever the child exited normally,
whatever its exit code; when the child was terminated by a signal, the
program aborts inside send_notification while unwrapping the missing exit
code and reports no ordinary exit status at all, in particular not the
fixed value 1. -/
theorem c1_exit_status (fmt : Nat → String) (conf : Config) (n : Nat) (c : Int) :
    run_after_child fmt conf n (ExitStatus.mk (some c)) = some 0 ∧
    run_after_child fmt conf n (ExitStatus.mk none) = none := by
  exact ⟨rfl, rfl⟩

/-- C2: evaluating the code at the failing input: when the child was
terminated by a signal, so that its exit code is absent, send_notification
unwraps status.code and aborts, and no notification body is ever produced
or dispatched. -/
theorem c2_signal_no_notification :
    notification_body (fun n => toString n ++ "s") default_config 3
      (ExitStatus.mk none) = none := by
  rfl

/-- C3 counterexample: with message "build done", 125 elapsed seconds and
exit code 0, the body built by the code places the exit-code line before
the duration line, so it differs from the ordering the claim states, here
rendered by notification_body_spec. -/
theorem c3_counterexample :
    notification_body (fun n => toString n ++ "s")
        { default_config with message := "build done" } 125
        (ExitStatus.mk (some 0))
      ≠ some (notification_body_spec (fun n => toString n ++ "s")
        { default_config with message := "build done" } 125
        (ExitStatus.mk (some 0))) := by
  decide

/-- C3 (amended): the notification body starts with the configured message,
then the exit-code line, then the line reporting the elapsed duration; the
exit code must be present (otherwise the program aborts before composing a
body), and the duration handed to the formatter is the wall-clock
difference truncated to whole seconds. -/
theorem c3_body_layout (fmt : Nat → String) (conf : Config) (nanos : Nat) (c : Int) :
    notification_body fmt conf (elapsed_whole_secs nanos) (ExitStatus.mk (some c))
      = some (conf.message ++ "\n" ++ "Result: " ++ toString c ++ "\n"
          ++ "Completed in " ++ fmt (nanos / 1000000000)) := by
  rfl

/-- C9: urgency parsing is total: exactly the strings low, normal and
critical map to Low, Normal and Critical, and every other string maps to
Normal. -/
theorem c9_parse_urgency_total (s : String) :
    parse_urgency "low" = Urgency.Low ∧
    parse_urgency "normal" = Urgency.Normal ∧
    parse_urgency "critical" = Urgency.Critical ∧
    (s ≠ "low" → s ≠ "normal" → s ≠ "critical" → parse_urgency s = Urgency.Normal) := by
  refine ⟨rfl, rfl, rfl, ?_⟩
  intro h1 h2 h3
  simp [parse_urgency, h1, h2, h3]

/-- C9 witness: matching is case-sensitive, so the string Critical with a
capital letter falls back to Normal. -/
theorem c9_witness : parse_urgency "Critical" = Urgency.Normal :=
  (c9_parse_urgency_total "Critical").2.2.2 (by decide) (by decide) (by decide)

/-- C10: applying the command-line overrides to a configuration leaves its
icon and command fields unchanged, whatever the arguments hold. -/
theorem c10_frame (conf : Config) (args : Args) :
    (update_conf_from_args conf args).icon = conf.icon ∧
    (update_conf_from_args conf args).command = conf.command := by
  obtain ⟨p, t, m, o, u, cmd⟩ := args
  cases t <;> cases m <;> cases o <;> cases u <;> exact ⟨rfl, rfl⟩

/-- Two profiles sharing the name p, distinguished by their titles. -/
def dupFirst : TomlProfile :=
  { name := "p", icon := none, message := none, timeout := none,
    title := some "first", urgency := none, command := none }

/-- The later declaration under the duplicated name p. -/
def dupSecond : TomlProfile :=
  { dupFirst with title := some "second" }

/-- C4 counterexample: with two profiles both named p, lookup returns the
config of the first declaration, which differs from the config of the last
one, so last-declaration-wins fails. -/
theorem c4_counterexample :
    from_toml "p" (TomlConfig.mk (some [dupFirst, dupSecond]))
        = from_toml_profile dupFirst ∧
    from_toml_profile dupFirst ≠ from_toml_profile dupSecond := by
  constructor
  · rfl
  · decide

/-- C4 (amended): when several profiles share a name, the first declaration
wins: lookup returns the first profile in declaration order whose name
matches, and the built-in default config when none matches. -/
theorem c4_first_wins (name : String) (ps : List TomlProfile) :
    from_toml name (TomlConfig.mk (some ps))
      = (ps.find? (fun q => q.name == name)).elim default_config from_toml_profile := by
  induction ps with
  | nil => rfl
  | cons p rest ih =>
      show from_toml_find name (p :: rest) = _
      by_cases h : name = p.name
      · simp [from_toml_find, List.find?, h, beq_iff_eq]
      · have hb : (p.name == name) = false := by
          simp [beq_iff_eq]
          exact fun hc => h hc.symm
        simp only [from_toml_find, if_neg h, List.find?, hb]
        exact ih

/-- C5: for every profile lookup result and argument set: title and message
equal the override when one is present and the profile value when not;
timeout and urgency equal the parsed override when one is present and the
profile value when not; the command always equals the command vector of the
argument set verbatim. -/
theorem c5_resolution (args : Args) (tc : Option TomlConfig) :
    (new_from args tc).title
        = args.title.elim (lookup_config args.profile tc).title (fun t => t) ∧
    (new_from args tc).message
        = args.message.elim (lookup_config args.profile tc).message (fun m => m) ∧
    (new_from args tc).timeout
        = args.timeout.elim (lookup_config args.profile tc).timeout parse_timeout ∧
    (new_from args tc).urgency
        = args.urgency.elim (lookup_config args.profile tc).urgency parse_urgency ∧
    (new_from args tc).command = args.command := by
  obtain ⟨p, t, m, o, u, cmd⟩ := args
  cases t <;> cases m <;> cases o <;> cases u <;>
    exact ⟨rfl, rfl, rfl, rfl, rfl⟩

/-- A profile declaring every field, among them a command. -/
def fullProfile : TomlProfile :=
  { name := "work", icon := some "bell", message := some "job finished",
    timeout := some "5000", title := some "Build", urgency := some "critical",
    command := some "echo hello" }

/-- An argument set selecting the profile named work and overriding
nothing. -/
def noOverrides : Args :=
  { profile := "work", title := none, message := none, timeout := none,
    urgency := none, command := [] }

/-- C6 counterexample: resolving fullProfile, which declares all fields and
the command echo hello, with an empty override set does not reproduce its
values unchanged: the resolved command is the override command vector, not
the profile command. -/
theorem c6_counterexample :
    new_from noOverrides (some (TomlConfig.mk (some [fullProfile])))
      ≠ from_toml_profile fullProfile := by
  decide

/-- C6 (amended): resolving a declared profile with an empty override set
leaves icon, message, timeout, title and urgency exactly the profile
values; only the command field changes, to the command vector of the
override set, regardless of any command the profile declares. -/
theorem c6_round_trip (p : TomlProfile) (cmd : List String) :
    new_from (Args.mk p.name none none none none cmd)
        (some (TomlConfig.mk (some [p])))
      = { from_toml_profile p with command := cmd } := by
  show { from_toml_find p.name [p] with command := cmd } = _
  rw [from_toml_find, if_pos rfl]

/-- C7: an absent, unreadable or malformed configuration source produces no
TomlConfig and the configuration built from it is the built-in default; a
lookup of a name carried by no stored profile also returns the built-in
default profile, whose title is Command completed, message empty, timeout
Default and urgency Normal; every one of these paths is a total function
that returns to the caller. -/
theorem c7_default_fallback (fromStr : String → Option TomlConfig) (s : String)
    (hs : fromStr s = none) (name : String) (ps : List TomlProfile)
    (hname : ∀ p ∈ ps, p.name ≠ name) :
    read_config_file fromStr ConfigSource.absent = none ∧
    read_config_file fromStr ConfigSource.unreadable = none ∧
    read_config_file fromStr (ConfigSource.contents s) = none ∧
    lookup_config name none = default_config ∧
    from_toml name (TomlConfig.mk (some ps)) = default_config ∧
    default_config.title = "Command completed" ∧
    default_config.message = "" ∧
    default_config.timeout = Timeout.Default ∧
    default_config.urgency = Urgency.Normal := by
  have key : ∀ qs : List TomlProfile, (∀ p ∈ qs, p.name ≠ name) →
      from_toml_find name qs = default_config := by
    intro qs
    induction qs with
    | nil => intro _; rfl
    | cons q rest ih =>
        intro hq
        have h1 : q.name ≠ name := hq q (by simp)
        have h2 : ∀ p ∈ rest, p.name ≠ name := fun p hp => hq p (by simp [hp])
        rw [from_toml_find, if_neg (fun hc => h1 hc.symm)]
        exact ih h2
  refine ⟨rfl, rfl, ?_, rfl, key ps hname, rfl, rfl, rfl, rfl⟩
  simp [read_config_file, hs]

/-- C7 witness: a parser that rejects everything, the garbage string, and a
lookup of the name missing in a store holding only a profile named p. -/
theorem c7_witness :
    read_config_file (fun _ => (none : Option TomlConfig)) ConfigSource.absent
        = none ∧
    read_config_file (fun _ => (none : Option TomlConfig)) ConfigSource.unreadable
        = none ∧
    read_config_file (fun _ => (none : Option TomlConfig))
        (ConfigSource.contents "garbage") = none ∧
    lookup_config "missing" none = default_config ∧
    from_toml "missing"
        (TomlConfig.mk (some [TomlProfile.mk "p" none none none none none none]))
        = default_config ∧
    default_config.title = "Command completed" ∧
    default_config.message = "" ∧
    default_config.timeout = Timeout.Default ∧
    default_config.urgency = Urgency.Normal :=
  c7_default_fallback (fun _ => none) "garbage" rfl "missing"
    [TomlProfile.mk "p" none none none none none none] (by decide)

/-- C8 counterexample: the string 4294967296 is the decimal notation of a
non-negative integer, but that value does not fit in the u32 the source
parses into, so parse_timeout yields Default rather than Milliseconds of
that value. -/
theorem c8_counterexample :
    decimalVal "4294967296".data = some 4294967296 ∧
    parse_timeout "4294967296" = Timeout.Default ∧
    Timeout.Default ≠ Timeout.Milliseconds 4294967296 := by
  refine ⟨by decide, by decide, by decide⟩

/-- C8 (amended): timeout parsing is total: the string default maps to
Default, never maps to Never, a string that parses as a non-negative
integer fitting in 32 bits maps to Milliseconds of that value, and every
other string — negative numbers, non-numeric strings, and values of 2^32 or
more — maps to Default; no input fails. -/
theorem c8_parse_timeout_total (s : String) (n : Nat) :
    parse_timeout "default" = Timeout.Default ∧
    parse_timeout "never" = Timeout.Never ∧
    (parseU32 s = some n → parse_timeout s = Timeout.Milliseconds n) ∧
    (s ≠ "default" → s ≠ "never" → parseU32 s = none →
      parse_timeout s = Timeout.Default) := by
  refine ⟨rfl, rfl, ?_, ?_⟩
  · intro h
    by_cases hd : s = "default"
    · subst hd
      have hnone : parseU32 "default" = none := by decide
      rw [hnone] at h
      exact Option.noConfusion h
    · by_cases hn : s = "never"
      · subst hn
        have hnone : parseU32 "never" = none := by decide
        rw [hnone] at h
        exact Option.noConfusion h
      · simp [parse_timeout, hd, hn, h]
  · intro hd hn h
    simp [parse_timeout, hd, hn, h]

/-- C8 witness: the string 250 parses to Milliseconds 250, and the
non-numeric string abc falls back to Default. -/
theorem c8_witness :
    (parseU32 "250" = some 250 ∧ parse_timeout "250" = Timeout.Milliseconds 250) ∧
    parse_timeout "abc" = Timeout.Default :=
  ⟨⟨by decide, (c8_parse_timeout_total "250" 250).2.2.1 (by decide)⟩,
   (c8_parse_timeout_total "abc" 0).2.2.2 (by decide) (by decide) (by decide)⟩

end NotifyComplete
